import Mathlib

/-!
Verification development for `update-ansible-config.py`.

The script fetches a secret from an Azure Key Vault (SDK path with CLI
fallback), backs up `ansible.cfg`, substitutes the literal placeholder
`Hub_Token` by the secret, restores the backup when the write fails, and
verifies the result.  We embed the script shallowly: every external effect
(CLI availability, login state, SDK import, file existence, the outcome of
each I/O operation and of each fetch attempt) is a field of an `Env`
record, file contents are `List Char`, and each Python function becomes a
Lean function from `Env` (and the mutable file state) to its printed
output, its updated state and whether it reached `sys.exit(1)`.
-/

namespace UpdateAnsibleConfig

/-- The whitespace characters stripped by Python `str.strip()` (ASCII part;
the script only ever strips CLI `tsv` output). -/
def isPySpace (c : Char) : Bool :=
  c = ' ' || c = '\t' || c = '\n' || c = '\r' || c = '\x0b' || c = '\x0c'

/-- Python `str.strip()`: drop whitespace from both ends. -/
def pyStrip (l : List Char) : List Char :=
  ((l.dropWhile isPySpace).reverse.dropWhile isPySpace).reverse

/-- Fueled worker for Python `str.replace(old, new)`: scan left to right,
replacing each non-overlapping occurrence of `ph`, never rescanning the
replacement text.  The fuel (instantiated with the input length) makes the
recursion structural, hence kernel-computable. -/
def pyReplaceFuel (ph rep : List Char) : Nat → List Char → List Char
  | _, [] => []
  | 0, l => l
  | fuel + 1, c :: cs =>
    if ph ≠ [] ∧ ph.isPrefixOf (c :: cs) = true then
      rep ++ pyReplaceFuel ph rep fuel (List.drop (ph.length - 1) cs)
    else
      c :: pyReplaceFuel ph rep fuel cs

/-- Python `s.replace(old, new)` for a non-empty `old`
(the script replaces the fixed non-empty placeholder). -/
def pyReplace (s ph rep : List Char) : List Char :=
  pyReplaceFuel ph rep s.length s

/-- Python `ph in s` substring test (for non-empty `ph`; for `ph = []` the
empty-suffix case makes it `true` on `[]` like Python does). -/
def occursIn (ph : List Char) : List Char → Bool
  | [] => ph.isEmpty
  | c :: cs => ph.isPrefixOf (c :: cs) || occursIn ph cs

/-- Split on newline characters, Python `s.split(chr(10))` style: the
result always has one more segment than there are newlines, so segment
starts are exactly the positions where `re.MULTILINE` anchors `^`. -/
def splitNl : List Char → List (List Char)
  | [] => [[]]
  | c :: cs =>
    let r := splitNl cs
    if c = '\n' then [] :: r
    else
      match r with
      | [] => [[c]]
      | h :: t => (c :: h) :: t

/-- `len(re.findall(r, content, re.MULTILINE))` for the anchored literal
pattern used in `verify_update`: the number of lines that begin with
`token=`. -/
def countTokenLines (l : List Char) : Nat :=
  (splitNl l).countP (fun line => ("token=".data).isPrefixOf line)

-- Configuration constants of the script (module level, PascalCase as in
-- the source).
def Config_File_Path : String := "/workspaces/ansible-dev-tools/scripts/ansible.cfg"
def Keyvault_Name : String := "kv-weu-wintel-prod"
def Secret_Name : String := "APIkey-Private-AAP-HUB"
def Secret_Version : String := "6024959f4bec42c4a2500bc31317116d"
def Token_Placeholder : String := "Hub_Token"
def Vault_Url : String := "https://" ++ Keyvault_Name ++ ".vault.azure.net/"

namespace Colors
def RED : String := "\x1b[0;31m"
def GREEN : String := "\x1b[0;32m"
def YELLOW : String := "\x1b[1;33m"
def NC : String := "\x1b[0m"
end Colors

/-- `print_status`: the line it prints (colour code, message, reset).
We model console output as the list of these lines. -/
def print_status (color message : String) : String :=
  color ++ message ++ Colors.NC

/-- One run's external environment: every effectful outcome the script can
observe.  `sdk_fetch = none` means `Client.get_secret` raised (any
exception); `some v` means it returned value `v` (the SDK path performs no
check on `v`).  `cli_fetch = none` means the `az keyvault secret show`
subprocess raised `CalledProcessError` or `TimeoutExpired`; `some raw`
means it produced `raw` on stdout.  The `*_err` strings are the `str(e)`
texts of the corresponding exceptions — none of them can contain the
secret, since the corresponding operation failed before or independently
of obtaining it.  `failed_write_content` is whatever a failed
`open(w)/write` left in the target (`open` in write mode truncates before
the write can fail). -/
structure Env where
  az_cli_ok : Bool
  az_logged_in : Bool
  sdk_available : Bool
  config_exists : Bool
  config_content : List Char
  sdk_fetch : Option (List Char)
  sdk_err : String
  cli_fetch : Option (List Char)
  cli_err : String
  timestamp : String
  backup_ok : Bool
  backup_err : String
  read_ok : Bool
  read_err : String
  write_ok : Bool
  write_err : String
  failed_write_content : List Char
  restore_ok : Bool
  restore_err : String
  verify_read_ok : Bool
  verify_read_err : String
deriving DecidableEq

/-- The files the script can mutate: the target's content and the backup
artifact (`none` while no backup has been created this run). -/
structure FileState where
  target : List Char
  backup : Option (List Char)
deriving DecidableEq

/-- Outcome of a whole run: the process exit code, the final file state and
the console output. -/
structure RunResult where
  exitCode : Nat
  fs : FileState
  out : List String
deriving DecidableEq

/-- `validate_prerequisites`: az CLI invocable; az login state (only checked
when the SDK is unavailable); target file exists.  Returns the printed
lines and `false` when it reached `sys.exit(1)`. -/
def validate_prerequisites (env : Env) : List String × Bool :=
  let o0 := [print_status Colors.YELLOW "Validating prerequisites..."]
  if env.az_cli_ok = false then
    (o0 ++ [print_status Colors.RED "Azure CLI is not installed. Please install it first."], false)
  else if env.sdk_available = false && env.az_logged_in = false then
    (o0 ++ [print_status Colors.RED "Not logged in to Azure. Please run az login first."], false)
  else if env.config_exists = false then
    (o0 ++ [print_status Colors.RED ("Ansible config file not found: " ++ Config_File_Path)], false)
  else
    (o0 ++ [print_status Colors.GREEN "Prerequisites validated successfully"], true)

/-- `fetch_keyvault_secret_sdk`: returns `Secret.value` unchanged on
success (no emptiness check); on any exception prints the diagnostic
context and reaches `sys.exit(1)` (modelled as `none`; the caller catches
the `SystemExit`). -/
def fetch_keyvault_secret_sdk (env : Env) : List String × Option (List Char) :=
  match env.sdk_fetch with
  | some v => ([], some v)
  | none =>
    ([print_status Colors.RED ("Failed to fetch secret using Azure SDK: " ++ env.sdk_err),
      print_status Colors.RED ("   Vault: " ++ Vault_Url),
      print_status Colors.RED ("   Secret: " ++ Secret_Name),
      print_status Colors.RED ("   Version: " ++ Secret_Version)], none)

/-- `fetch_keyvault_secret_cli`: runs the az CLI, strips the stdout, and
raises `ValueError` when the stripped token is empty; subprocess errors
and the empty-token case both print the diagnostics and reach
`sys.exit(1)`. -/
def fetch_keyvault_secret_cli (env : Env) : List String × Option (List Char) :=
  let errOut := fun (e : String) =>
    [print_status Colors.RED ("Failed to fetch secret using Azure CLI: " ++ e),
     print_status Colors.RED ("   Vault: " ++ Vault_Url),
     print_status Colors.RED ("   Secret: " ++ Secret_Name),
     print_status Colors.RED ("   Version: " ++ Secret_Version)]
  match env.cli_fetch with
  | none => (errOut env.cli_err, none)
  | some raw =>
    let Hub_Token := pyStrip raw
    if Hub_Token = [] then (errOut "Empty token received from Azure CLI", none)
    else ([], some Hub_Token)

/-- `fetch_keyvault_secret`: SDK first when importable; its `SystemExit` is
caught and the CLI fallback tried; `none` when the reached path(s) all
failed (the process then exits non-zero). -/
def fetch_keyvault_secret (env : Env) : List String × Option (List Char) :=
  let o0 := [print_status Colors.YELLOW "Fetching AAP Hub token from Azure Key Vault..."]
  let finish := fun (o : List String) (r : Option (List Char)) =>
    match r with
    | some v =>
      (o ++ [print_status Colors.GREEN "Successfully retrieved AAP Hub token from Azure Key Vault"],
       some v)
    | none => (o, none)
  if env.sdk_available then
    match fetch_keyvault_secret_sdk env with
    | (o1, some v) => finish (o0 ++ o1) (some v)
    | (o1, none) =>
      let (o2, r) := fetch_keyvault_secret_cli env
      finish (o0 ++ o1 ++ [print_status Colors.YELLOW "Azure SDK failed, falling back to Azure CLI..."] ++ o2) r
  else
    let (o2, r) := fetch_keyvault_secret_cli env
    finish (o0 ++ [print_status Colors.YELLOW "Azure SDK not available, using Azure CLI..."] ++ o2) r

/-- `update_ansible_config`: back the target up (exit on failure, nothing
mutated yet), read it (exit on failure), replace every occurrence of the
placeholder by the token (`Escaped_Token = re.escape(Hub_Token)` is
computed in the source but unused: the replacement is plain
`str.replace`), write back; on a write error copy the backup over the
target and exit non-zero whether or not that restoration succeeded. -/
def update_ansible_config (Hub_Token : List Char) (env : Env) (fs : FileState) :
    List String × FileState × Bool :=
  let o0 := [print_status Colors.YELLOW "Updating ansible.cfg with AAP Hub token..."]
  if env.backup_ok = false then
    (o0 ++ [print_status Colors.RED ("Failed to create backup: " ++ env.backup_err)], fs, false)
  else
    let fs1 : FileState := { fs with backup := some fs.target }
    let o1 := o0 ++ [print_status Colors.GREEN
      ("Backup created: " ++ Config_File_Path ++ ".backup." ++ env.timestamp)]
    if env.read_ok = false then
      (o1 ++ [print_status Colors.RED ("Failed to read configuration file: " ++ env.read_err)],
       fs1, false)
    else
      let Config_Content := fs1.target
      let Updated_Content := pyReplace Config_Content Token_Placeholder.data Hub_Token
      let o2 := o1 ++ [print_status Colors.GREEN "Starting update of ansible.cfg with AAP Hub token"]
      if env.write_ok then
        (o2 ++ [print_status Colors.GREEN "Successfully updated ansible.cfg with AAP Hub token"],
         { fs1 with target := Updated_Content }, true)
      else
        let o3 := o2 ++ [print_status Colors.RED ("Failed to update ansible.cfg: " ++ env.write_err)]
        if env.restore_ok then
          (o3 ++ [print_status Colors.YELLOW "Restored original configuration from backup"],
           { fs1 with target := fs.target }, false)
        else
          (o3 ++ [print_status Colors.RED ("Failed to restore backup: " ++ env.restore_err)],
           { fs1 with target := env.failed_write_content }, false)

/-- `verify_update`: re-read the target; fail when the placeholder is still
present or when no line begins with `token=`; otherwise report the count. -/
def verify_update (env : Env) (fs : FileState) : List String × Bool :=
  let o0 := [print_status Colors.YELLOW "Verifying configuration update..."]
  if env.verify_read_ok = false then
    (o0 ++ [print_status Colors.RED
      ("Failed to read configuration file for verification: " ++ env.verify_read_err)], false)
  else
    let Config_Content := fs.target
    if occursIn Token_Placeholder.data Config_Content then
      (o0 ++ [print_status Colors.RED "Token placeholder still found in configuration file"], false)
    else
      let Token_Count := countTokenLines Config_Content
      if Token_Count = 0 then
        (o0 ++ [print_status Colors.RED "No token configurations found in ansible.cfg"], false)
      else
        (o0 ++ [print_status Colors.GREEN "Configuration verification successful",
                print_status Colors.GREEN
                  ("Found " ++ toString Token_Count ++ " token configurations in ansible.cfg")],
         true)

/-- `main`: validate, fetch, patch, verify, each gated on the previous;
every `sys.exit(1)` yields exit code 1, full success yields 0.  The bare
`print()` separators appear as `""` lines. -/
def main (env : Env) : RunResult :=
  let fs0 : FileState := ⟨env.config_content, none⟩
  let o0 := [print_status Colors.GREEN "Starting AAP Hub token configuration update...", ""]
  match validate_prerequisites env with
  | (vo, false) => ⟨1, fs0, o0 ++ vo⟩
  | (vo, true) =>
    match fetch_keyvault_secret env with
    | (fo, none) => ⟨1, fs0, o0 ++ vo ++ [""] ++ fo⟩
    | (fo, some tok) =>
      match update_ansible_config tok env fs0 with
      | (uo, fs1, false) => ⟨1, fs1, o0 ++ vo ++ [""] ++ fo ++ [""] ++ uo⟩
      | (uo, fs1, true) =>
        match verify_update env fs1 with
        | (wo, false) => ⟨1, fs1, o0 ++ vo ++ [""] ++ fo ++ [""] ++ uo ++ [""] ++ wo⟩
        | (wo, true) =>
          ⟨0, fs1,
           o0 ++ vo ++ [""] ++ fo ++ [""] ++ uo ++ [""] ++ wo ++ [""] ++
             [print_status Colors.GREEN "Ansible configuration successfully updated with AAP Hub token!",
              print_status Colors.GREEN ("Configuration file: " ++ Config_File_Path),
              print_status Colors.GREEN "All galaxy server configurations now have valid tokens"]⟩

/-! ### String lemmas about the substitution and the substring test -/

/-- The empty pattern occurs in every list (Python `"" in s`). -/
theorem occursIn_nil (y : List Char) : occursIn [] y = true := by
  cases y <;> simp [occursIn, List.isPrefixOf]

/-- `occursIn` is preserved by prepending. -/
theorem occursIn_append_right (ph l x : List Char)
    (h : occursIn ph l = true) : occursIn ph (x ++ l) = true := by
  induction x with
  | nil => simpa using h
  | cons a x ih => simp [occursIn, ih]

/-- `occursIn` is preserved by appending. -/
theorem occursIn_append_left (ph l y : List Char)
    (h : occursIn ph l = true) : occursIn ph (l ++ y) = true := by
  induction l with
  | nil =>
    have hph : ph = [] := by simpa [occursIn, List.isEmpty_iff] using h
    subst hph
    exact occursIn_nil y
  | cons c cs ih =>
    simp only [occursIn, Bool.or_eq_true] at h
    rcases h with h | h
    · have hpre : ph <+: c :: (cs ++ y) := by
        simpa using (List.isPrefixOf_iff_prefix.mp h).trans (List.prefix_append _ y)
      simp [occursIn, List.isPrefixOf_iff_prefix, hpre]
    · simp [List.cons_append, occursIn, ih h]

/-- When the placeholder does not occur, the fueled replacement is the
identity. -/
theorem pyReplaceFuel_of_not_occurs (ph rep : List Char) :
    ∀ (fuel : Nat) (l : List Char), occursIn ph l = false →
      pyReplaceFuel ph rep fuel l = l := by
  intro fuel
  induction fuel with
  | zero => intro l _; cases l <;> simp [pyReplaceFuel]
  | succ n ih =>
    intro l h
    cases l with
    | nil => simp [pyReplaceFuel]
    | cons c cs =>
      simp only [occursIn, Bool.or_eq_false_iff] at h
      simp [pyReplaceFuel, h.1, ih cs h.2]

/-- Python-replace is a no-op on contents without the placeholder
(`update_ansible_config` then rewrites the file unchanged). -/
theorem pyReplace_of_not_occurs (l ph rep : List Char)
    (h : occursIn ph l = false) : pyReplace l ph rep = l :=
  pyReplaceFuel_of_not_occurs ph rep l.length l h

/-- When the (non-empty) placeholder occurs, the replacement output
contains the replacement text as a contiguous segment. -/
theorem pyReplaceFuel_surrounds (ph rep : List Char) (hph : ph ≠ []) :
    ∀ (fuel : Nat) (l : List Char), l.length ≤ fuel → occursIn ph l = true →
      ∃ s t, pyReplaceFuel ph rep fuel l = s ++ rep ++ t := by
  intro fuel
  induction fuel with
  | zero =>
    intro l hl h
    have hnil : l = [] := List.eq_nil_of_length_eq_zero (Nat.le_zero.mp hl)
    subst hnil
    have : ph = [] := by simpa [occursIn, List.isEmpty_iff] using h
    exact absurd this hph
  | succ n ih =>
    intro l hl h
    cases l with
    | nil =>
      have : ph = [] := by simpa [occursIn, List.isEmpty_iff] using h
      exact absurd this hph
    | cons c cs =>
      by_cases hp : ph.isPrefixOf (c :: cs) = true
      · exact ⟨[], pyReplaceFuel ph rep n (List.drop (ph.length - 1) cs),
          by simp [pyReplaceFuel, hph, hp]⟩
      · have h2 : occursIn ph cs = true := by
          simpa [occursIn, hp] using h
        obtain ⟨s, t, hst⟩ :=
          ih cs (Nat.le_of_succ_le_succ (by simpa using hl)) h2
        exact ⟨c :: s, t, by simp [pyReplaceFuel, hp, hst]⟩

/-- If the secret itself contains the placeholder and the content contains
the placeholder, substitution re-introduces the placeholder. -/
theorem occursIn_pyReplace_self (l ph rep : List Char) (hph : ph ≠ [])
    (hl : occursIn ph l = true) (hrep : occursIn ph rep = true) :
    occursIn ph (pyReplace l ph rep) = true := by
  obtain ⟨s, t, hst⟩ :=
    pyReplaceFuel_surrounds ph rep hph l.length l (Nat.le_refl _) hl
  rw [pyReplace, hst]
  have h1 := occursIn_append_left ph rep t hrep
  have h2 := occursIn_append_right ph (rep ++ t) s h1
  simpa [List.append_assoc] using h2

/-! ### Control-flow characterizations of the components -/

/-- A failed validation ends the run with exit code 1 and no file touched. -/
theorem main_validate_false (env : Env)
    (h : (validate_prerequisites env).2 = false) :
    (main env).exitCode = 1 ∧ (main env).fs = ⟨env.config_content, none⟩ := by
  rcases hv : validate_prerequisites env with ⟨vo, vok⟩
  cases vok
  · simp [main, hv]
  · rw [hv] at h; simp at h

/-- A failed fetch ends the run with exit code 1 and no file touched. -/
theorem main_fetch_none (env : Env)
    (h : (fetch_keyvault_secret env).2 = none) :
    (main env).exitCode = 1 ∧ (main env).fs = ⟨env.config_content, none⟩ := by
  rcases hv : validate_prerequisites env with ⟨vo, vok⟩
  cases vok
  · simp [main, hv]
  · rcases hf : fetch_keyvault_secret env with ⟨fo, r⟩
    rw [hf] at h
    simp at h
    subst h
    simp [main, hv, hf]

/-- Once validation and fetch succeed, the final file state is whatever the
patcher produced, and the run succeeds exactly when patching and
verification both succeed. -/
theorem main_update_result (env : Env) (vo fo : List String) (tok : List Char)
    (hv : validate_prerequisites env = (vo, true))
    (hf : fetch_keyvault_secret env = (fo, some tok)) :
    (main env).fs = (update_ansible_config tok env ⟨env.config_content, none⟩).2.1 ∧
    ((main env).exitCode = 0 ↔
      (update_ansible_config tok env ⟨env.config_content, none⟩).2.2 = true ∧
      (verify_update env (update_ansible_config tok env ⟨env.config_content, none⟩).2.1).2 = true) := by
  rcases hu : update_ansible_config tok env ⟨env.config_content, none⟩ with ⟨uo, fs1, uok⟩
  cases uok
  · simp [main, hv, hf, hu]
  · rcases hw : verify_update env fs1 with ⟨wo, wok⟩
    cases wok <;> simp [main, hv, hf, hu, hw]

/-- The patcher's file state and success flag, by cases on the I/O flags. -/
theorem update_spec (tok : List Char) (env : Env) (fs : FileState) :
    (update_ansible_config tok env fs).2 =
      if env.backup_ok = false then (fs, false)
      else if env.read_ok = false then (⟨fs.target, some fs.target⟩, false)
      else if env.write_ok then
        (⟨pyReplace fs.target Token_Placeholder.data tok, some fs.target⟩, true)
      else if env.restore_ok then (⟨fs.target, some fs.target⟩, false)
      else (⟨env.failed_write_content, some fs.target⟩, false) := by
  obtain ⟨tgt, bak⟩ := fs
  cases hb : env.backup_ok <;> cases hr : env.read_ok <;>
    cases hw : env.write_ok <;> cases hs : env.restore_ok <;>
      simp [update_ansible_config, hb, hr, hw, hs]

/-- The verifier succeeds exactly when the re-read works, the placeholder
is gone and at least one `token=` line exists. -/
theorem verify_ok_iff (env : Env) (fs : FileState) :
    (verify_update env fs).2 = true ↔
      env.verify_read_ok = true ∧
      occursIn Token_Placeholder.data fs.target = false ∧
      countTokenLines fs.target ≠ 0 := by
  cases hv : env.verify_read_ok
  · simp [verify_update, hv]
  · cases ho : occursIn Token_Placeholder.data fs.target
    · by_cases hc : countTokenLines fs.target = 0 <;>
        simp [verify_update, hv, ho, hc]
    · simp [verify_update, hv, ho]

/-- The CLI fetch result: `none` on a subprocess error and on an
empty-after-strip value, the stripped stdout otherwise. -/
theorem cli_snd (env : Env) :
    (fetch_keyvault_secret_cli env).2 =
      match env.cli_fetch with
      | none => none
      | some raw => if pyStrip raw = [] then none else some (pyStrip raw) := by
  cases hc : env.cli_fetch
  · simp [fetch_keyvault_secret_cli, hc]
  · by_cases he : pyStrip ‹List Char› = [] <;>
      simp [fetch_keyvault_secret_cli, hc, he]

/-- The fetch result: the SDK value (unchecked) when the SDK is available
and returned one, the CLI result otherwise. -/
theorem fetch_snd (env : Env) :
    (fetch_keyvault_secret env).2 =
      if env.sdk_available then
        match env.sdk_fetch with
        | some v => some v
        | none => (fetch_keyvault_secret_cli env).2
      else (fetch_keyvault_secret_cli env).2 := by
  cases hs : env.sdk_available <;> cases hf : env.sdk_fetch <;>
    rcases hc : fetch_keyvault_secret_cli env with ⟨co, r⟩ <;>
      cases r <;>
        simp [fetch_keyvault_secret, fetch_keyvault_secret_sdk, hs, hf, hc]

/-- One failure test for the update path: validation and fetch succeed but
the patcher hits an I/O error that the update cannot exit cleanly from. -/
theorem main_update_failed (env : Env) (vo fo : List String) (tok : List Char)
    (hv : validate_prerequisites env = (vo, true))
    (hf : fetch_keyvault_secret env = (fo, some tok))
    (hu : (update_ansible_config tok env ⟨env.config_content, none⟩).2.2 = false) :
    (main env).exitCode ≠ 0 := by
  obtain ⟨_, hiff⟩ := main_update_result env vo fo tok hv hf
  intro h0
  obtain ⟨hu2, _⟩ := hiff.mp h0
  rw [hu] at hu2
  exact Bool.false_ne_true hu2

/-! ### Concrete environments used by witnesses and counterexamples -/

/-- A fully healthy run: everything available, every I/O succeeds, the
target holds one placeholder line. -/
def baseEnv : Env :=
  { az_cli_ok := true, az_logged_in := true, sdk_available := true
    config_exists := true, config_content := "token=Hub_Token\n".data
    sdk_fetch := some "abc123".data, sdk_err := "credential error"
    cli_fetch := some "abc123\n".data, cli_err := "command failed"
    timestamp := "20250101_000000"
    backup_ok := true, backup_err := "disk full"
    read_ok := true, read_err := "read error"
    write_ok := true, write_err := "disk full"
    failed_write_content := []
    restore_ok := true, restore_err := "copy failed"
    verify_read_ok := true, verify_read_err := "read error" }

/-! ### The claims -/

/-- C7: prerequisite validation fails the process with a non-zero exit when
the external CLI is not invocable (missing, errors, or 10-second timeout),
regardless of whether the SDK path is available for the fetch. -/
theorem C7_cli_required (env : Env) (h : env.az_cli_ok = false) :
    (validate_prerequisites env).2 = false ∧ (main env).exitCode ≠ 0 := by
  have hv : (validate_prerequisites env).2 = false := by
    simp [validate_prerequisites, h]
  have h1 := (main_validate_false env hv).1
  exact ⟨hv, by omega⟩

/-- C7 witness: a run with the SDK importable but the az CLI missing still
fails validation and exits non-zero. -/
theorem C7_witness :
    ({ baseEnv with az_cli_ok := false } : Env).sdk_available = true ∧
    (validate_prerequisites { baseEnv with az_cli_ok := false }).2 = false ∧
    (main { baseEnv with az_cli_ok := false }).exitCode ≠ 0 :=
  ⟨rfl, (C7_cli_required { baseEnv with az_cli_ok := false } rfl).1,
    (C7_cli_required { baseEnv with az_cli_ok := false } rfl).2⟩

/-- C8: when the target configuration file does not exist at start,
validation fails, the process exits non-zero, and no backup is created and
no write happens. -/
theorem C8_missing_target (env : Env) (h : env.config_exists = false) :
    (validate_prerequisites env).2 = false ∧ (main env).exitCode ≠ 0 ∧
    (main env).fs.backup = none ∧ (main env).fs.target = env.config_content := by
  have hv : (validate_prerequisites env).2 = false := by
    cases hc : env.az_cli_ok <;> cases hs : env.sdk_available <;>
      cases hl : env.az_logged_in <;> simp [validate_prerequisites, h, hc, hs, hl]
  obtain ⟨h1, h2⟩ := main_validate_false env hv
  exact ⟨hv, by omega, by rw [h2], by rw [h2]⟩

/-- C8 witness: a run against a missing target exits non-zero without
creating a backup or writing. -/
theorem C8_witness :
    (validate_prerequisites { baseEnv with config_exists := false }).2 = false ∧
    (main { baseEnv with config_exists := false }).exitCode ≠ 0 ∧
    (main { baseEnv with config_exists := false }).fs.backup = none :=
  ⟨(C8_missing_target { baseEnv with config_exists := false } rfl).1,
   (C8_missing_target { baseEnv with config_exists := false } rfl).2.1,
   (C8_missing_target { baseEnv with config_exists := false } rfl).2.2.1⟩

/-- C3: the target is only ever overwritten after a successful backup whose
content is the target's pre-write content, and a failed backup copy ends
the run non-zero with no mutation. -/
theorem C3_backup_before_write (env : Env) :
    ((main env).fs.target ≠ env.config_content →
      (main env).fs.backup = some env.config_content) ∧
    (env.backup_ok = false →
      (main env).exitCode ≠ 0 ∧ (main env).fs.target = env.config_content ∧
      (main env).fs.backup = none) := by
  rcases hv : validate_prerequisites env with ⟨vo, vok⟩
  cases vok
  · obtain ⟨h1, h2⟩ := main_validate_false env (by rw [hv])
    rw [h2]
    exact ⟨fun h => absurd rfl h, fun _ => ⟨by omega, rfl, rfl⟩⟩
  · rcases hf : fetch_keyvault_secret env with ⟨fo, r⟩
    cases r with
    | none =>
      obtain ⟨h1, h2⟩ := main_fetch_none env (by rw [hf])
      rw [h2]
      exact ⟨fun h => absurd rfl h, fun _ => ⟨by omega, rfl, rfl⟩⟩
    | some tok =>
      obtain ⟨hfs, hiff⟩ := main_update_result env vo fo tok hv hf
      cases hb : env.backup_ok
      · have hufs : (update_ansible_config tok env ⟨env.config_content, none⟩).2 =
            (⟨env.config_content, none⟩, false) := by
          rw [update_spec]; simp [hb]
        have hfs' : (main env).fs = ⟨env.config_content, none⟩ := by
          rw [hfs, hufs]
        have hne := main_update_failed env vo fo tok hv hf (by rw [hufs])
        rw [hfs']
        exact ⟨fun h => absurd rfl h, fun _ => ⟨hne, rfl, rfl⟩⟩
      · have hbk : (main env).fs.backup = some env.config_content := by
          rw [hfs, update_spec]
          cases hr : env.read_ok <;> cases hw : env.write_ok <;>
            cases hs2 : env.restore_ok <;> simp [hb, hr, hw, hs2]
        refine ⟨fun _ => hbk, fun h => ?_⟩
        simp [hb] at h

/-- C3 witness: in a healthy run the target is mutated and the backup holds
the pre-run content; in a run whose backup copy fails, the process exits
non-zero with the target untouched and no backup. -/
theorem C3_witness :
    ((main baseEnv).fs.target ≠ baseEnv.config_content →
      (main baseEnv).fs.backup = some baseEnv.config_content) ∧
    (main baseEnv).fs.target ≠ baseEnv.config_content ∧
    ((main { baseEnv with backup_ok := false }).exitCode ≠ 0 ∧
      (main { baseEnv with backup_ok := false }).fs.target =
        ({ baseEnv with backup_ok := false } : Env).config_content ∧
      (main { baseEnv with backup_ok := false }).fs.backup = none) :=
  ⟨(C3_backup_before_write baseEnv).1, by decide,
   (C3_backup_before_write { baseEnv with backup_ok := false }).2 rfl⟩

/-- C2 counterexample: when the write raises and the restoration copy also
fails, the run exits non-zero but the target is left with the truncated
partial write, not the pre-run content — refuting the unconditional
claim. -/
theorem C2_counterexample :
    ({ baseEnv with write_ok := false, restore_ok := false } : Env).write_ok = false ∧
    (main { baseEnv with write_ok := false, restore_ok := false }).exitCode ≠ 0 ∧
    (main { baseEnv with write_ok := false, restore_ok := false }).fs.target ≠
      ({ baseEnv with write_ok := false, restore_ok := false } : Env).config_content := by
  decide

/-- C2 (amended): when the write step raises an I/O error, the process
exits non-zero; and provided the backup restoration copy succeeds, the
target's final content equals its pre-run content. -/
theorem C2_write_failure_restores (env : Env) (vo fo : List String) (tok : List Char)
    (hv : validate_prerequisites env = (vo, true))
    (hf : fetch_keyvault_secret env = (fo, some tok))
    (hb : env.backup_ok = true) (hr : env.read_ok = true)
    (hw : env.write_ok = false) (hs : env.restore_ok = true) :
    (main env).exitCode ≠ 0 ∧ (main env).fs.target = env.config_content := by
  obtain ⟨hfs, hiff⟩ := main_update_result env vo fo tok hv hf
  have hufs : (update_ansible_config tok env ⟨env.config_content, none⟩).2 =
      (⟨env.config_content, some env.config_content⟩, false) := by
    rw [update_spec]; simp [hb, hr, hw, hs]
  exact ⟨main_update_failed env vo fo tok hv hf (by rw [hufs]), by rw [hfs, hufs]⟩

/-- C2 witness: a run whose write fails but whose restoration succeeds
exits non-zero with the pre-run content back in place. -/
theorem C2_witness :
    (main { baseEnv with write_ok := false }).exitCode ≠ 0 ∧
    (main { baseEnv with write_ok := false }).fs.target =
      ({ baseEnv with write_ok := false } : Env).config_content :=
  C2_write_failure_restores { baseEnv with write_ok := false }
    (validate_prerequisites { baseEnv with write_ok := false }).1
    (fetch_keyvault_secret { baseEnv with write_ok := false }).1
    "abc123".data rfl rfl rfl rfl rfl rfl

/-- C4: when the SDK path raises, the overall fetch result is the CLI
path's result (the SDK failure is not process-ending there); and when the
CLI path also fails — a subprocess error or an empty-after-strip value
both yield `none` — the run exits non-zero with the target untouched. -/
theorem C4_fallback (env : Env) (hs : env.sdk_available = true)
    (hf : env.sdk_fetch = none) :
    (fetch_keyvault_secret env).2 = (fetch_keyvault_secret_cli env).2 ∧
    ((fetch_keyvault_secret_cli env).2 = none →
      (main env).exitCode ≠ 0 ∧ (main env).fs.target = env.config_content ∧
      (main env).fs.backup = none) := by
  have h1 : (fetch_keyvault_secret env).2 = (fetch_keyvault_secret_cli env).2 := by
    rw [fetch_snd, hs, hf]
    simp
  refine ⟨h1, fun hc => ?_⟩
  obtain ⟨he, hfs⟩ := main_fetch_none env (h1.trans hc)
  exact ⟨by omega, by rw [hfs], by rw [hfs]⟩

/-- C4 witness: SDK raises and the CLI subprocess fails too — the run exits
non-zero and the file is never mutated. -/
theorem C4_witness :
    (fetch_keyvault_secret { baseEnv with sdk_fetch := none, cli_fetch := none }).2 =
      (fetch_keyvault_secret_cli { baseEnv with sdk_fetch := none, cli_fetch := none }).2 ∧
    ((main { baseEnv with sdk_fetch := none, cli_fetch := none }).exitCode ≠ 0 ∧
      (main { baseEnv with sdk_fetch := none, cli_fetch := none }).fs.target =
        ({ baseEnv with sdk_fetch := none, cli_fetch := none } : Env).config_content ∧
      (main { baseEnv with sdk_fetch := none, cli_fetch := none }).fs.backup = none) :=
  ⟨(C4_fallback { baseEnv with sdk_fetch := none, cli_fetch := none } rfl rfl).1,
   (C4_fallback { baseEnv with sdk_fetch := none, cli_fetch := none } rfl rfl).2 rfl⟩

/-- C5 counterexample: with the SDK available and returning the empty
string, the fetcher passes the empty secret straight to the patch step —
and the whole run even exits 0, writing the placeholder away with nothing
in its place.  The claimed emptiness check exists only on the CLI path. -/
theorem C5_counterexample :
    (fetch_keyvault_secret { baseEnv with sdk_fetch := some [] }).2 = some [] ∧
    (main { baseEnv with sdk_fetch := some [] }).exitCode = 0 ∧
    (main { baseEnv with sdk_fetch := some [] }).fs.target = "token=\n".data := by
  decide

/-- C5 (amended): the CLI path treats an empty-after-strip value as a
retrieval failure, but the SDK path performs no emptiness check and passes
whatever `get_secret` returned — empty included — on to the patch step. -/
theorem C5_empty_check_cli_only (env : Env) :
    (env.sdk_available = true → ∀ v, env.sdk_fetch = some v →
      (fetch_keyvault_secret env).2 = some v) ∧
    (∀ raw, env.cli_fetch = some raw → pyStrip raw = [] →
      (fetch_keyvault_secret_cli env).2 = none) := by
  constructor
  · intro hs v hv
    rw [fetch_snd, hs, hv]
    simp
  · intro raw hc he
    rw [cli_snd, hc]
    simp [he]

/-- C5 witness: an SDK-returned value flows through unchanged, and a
whitespace-only CLI stdout is rejected. -/
theorem C5_witness :
    (fetch_keyvault_secret { baseEnv with sdk_fetch := some "v1".data }).2 =
      some "v1".data ∧
    (fetch_keyvault_secret_cli { baseEnv with cli_fetch := some "  \n".data }).2 = none :=
  ⟨(C5_empty_check_cli_only { baseEnv with sdk_fetch := some "v1".data }).1
      rfl "v1".data rfl,
   (C5_empty_check_cli_only { baseEnv with cli_fetch := some "  \n".data }).2
      "  \n".data rfl (by decide)⟩

/-- C1: after a run that exits 0, the target's final content equals the
original content with every occurrence of the placeholder replaced by the
fetched secret, and the placeholder literal is absent from it. -/
theorem C1_substitution_complete (env : Env) (tok : List Char)
    (h0 : (main env).exitCode = 0)
    (htok : (fetch_keyvault_secret env).2 = some tok) :
    (main env).fs.target = pyReplace env.config_content Token_Placeholder.data tok ∧
    occursIn Token_Placeholder.data (main env).fs.target = false := by
  rcases hv : validate_prerequisites env with ⟨vo, vok⟩
  cases vok
  · have := (main_validate_false env (by rw [hv])).1
    omega
  · rcases hf : fetch_keyvault_secret env with ⟨fo, r⟩
    rw [hf] at htok
    simp at htok
    subst htok
    obtain ⟨hfs, hiff⟩ := main_update_result env vo fo tok hv hf
    obtain ⟨hu2, hw2⟩ := hiff.mp h0
    have hspec := update_spec tok env ⟨env.config_content, none⟩
    cases hb : env.backup_ok <;> cases hr : env.read_ok <;>
      cases hw : env.write_ok <;> cases hrs : env.restore_ok <;>
        rw [hspec] at hu2 <;> simp [hb, hr, hw, hrs] at hu2
    all_goals (
      have hfs' : (main env).fs =
          ⟨pyReplace env.config_content Token_Placeholder.data tok,
            some env.config_content⟩ := by
        rw [hfs, hspec]
        simp [hb, hr, hw, hrs]
      have hocc := ((verify_ok_iff env _).mp hw2).2.1
      rw [← hfs] at hocc
      exact ⟨by rw [hfs'], hocc⟩)

/-- C1 witness: the healthy run exits 0 with the placeholder line rewritten
to the fetched secret. -/
theorem C1_witness :
    (main baseEnv).fs.target =
      pyReplace baseEnv.config_content Token_Placeholder.data "abc123".data ∧
    occursIn Token_Placeholder.data (main baseEnv).fs.target = false :=
  C1_substitution_complete baseEnv "abc123".data (by decide) (by decide)

/-- C6: on content without the placeholder the substitution is a no-op, and
verification of such content succeeds exactly when at least one line
begins with token= — so a second run over an already-substituted file
still passes. -/
theorem C6_idempotent (tok c : List Char) (env : Env) (fs : FileState)
    (hocc : occursIn Token_Placeholder.data c = false) :
    pyReplace c Token_Placeholder.data tok = c ∧
    (env.verify_read_ok = true → fs.target = c →
      ((verify_update env fs).2 = true ↔ countTokenLines c ≠ 0)) := by
  refine ⟨pyReplace_of_not_occurs c _ tok hocc, fun hv hfs => ?_⟩
  rw [verify_ok_iff]
  simp [hv, hfs, hocc]

/-- C6 witness: already-substituted content is left unchanged by the patch
step and still passes verification. -/
theorem C6_witness :
    pyReplace "token=abc123\n".data Token_Placeholder.data "xyz".data =
      "token=abc123\n".data ∧
    ((verify_update baseEnv ⟨"token=abc123\n".data, none⟩).2 = true ↔
      countTokenLines "token=abc123\n".data ≠ 0) :=
  ⟨(C6_idempotent "xyz".data "token=abc123\n".data baseEnv
      ⟨"token=abc123\n".data, none⟩ (by decide)).1,
   (C6_idempotent "xyz".data "token=abc123\n".data baseEnv
      ⟨"token=abc123\n".data, none⟩ (by decide)).2 rfl rfl⟩

/-- C10: when the fetched secret itself contains the placeholder literal
and the target contained at least one placeholder, the run cannot exit 0:
the substitution re-introduces the placeholder and verification fails. -/
theorem C10_poisoned_secret (env : Env) (tok : List Char)
    (htok : (fetch_keyvault_secret env).2 = some tok)
    (hsec : occursIn Token_Placeholder.data tok = true)
    (hcont : occursIn Token_Placeholder.data env.config_content = true) :
    (main env).exitCode ≠ 0 := by
  intro h0
  rcases hv : validate_prerequisites env with ⟨vo, vok⟩
  cases vok
  · have := (main_validate_false env (by rw [hv])).1
    omega
  · rcases hf : fetch_keyvault_secret env with ⟨fo, r⟩
    rw [hf] at htok
    simp at htok
    subst htok
    obtain ⟨hfs, hiff⟩ := main_update_result env vo fo tok hv hf
    obtain ⟨hu2, hw2⟩ := hiff.mp h0
    have hspec := update_spec tok env ⟨env.config_content, none⟩
    cases hb : env.backup_ok <;> cases hr : env.read_ok <;>
      cases hw : env.write_ok <;> cases hrs : env.restore_ok <;>
        rw [hspec] at hu2 <;> simp [hb, hr, hw, hrs] at hu2
    all_goals (
      have hocc := ((verify_ok_iff env _).mp hw2).2.1
      rw [hspec] at hocc
      simp [hb, hr, hw, hrs] at hocc
      have hagain := occursIn_pyReplace_self env.config_content
        Token_Placeholder.data tok (by decide) hcont hsec
      rw [hagain] at hocc
      exact absurd hocc (by decide))

/-- C10 witness: a secret containing the placeholder makes the otherwise
healthy run fail. -/
theorem C10_witness :
    (main { baseEnv with sdk_fetch := some "xHub_Tokeny".data }).exitCode ≠ 0 :=
  C10_poisoned_secret { baseEnv with sdk_fetch := some "xHub_Tokeny".data }
    "xHub_Tokeny".data (by decide) (by decide) (by decide)

/-! ### Output independence helpers (for C9) -/

/-- The CLI fetcher's output and failure/success outcome depend only on the
error text, on whether the subprocess failed, and on whether the stripped
stdout is empty — not on the token characters themselves. -/
theorem cli_out_indep (env1 env2 : Env)
    (herr : env1.cli_err = env2.cli_err)
    (hnone : env1.cli_fetch = none ↔ env2.cli_fetch = none)
    (hempty : ∀ r1 r2, env1.cli_fetch = some r1 → env2.cli_fetch = some r2 →
      (pyStrip r1 = [] ↔ pyStrip r2 = [])) :
    (fetch_keyvault_secret_cli env1).1 = (fetch_keyvault_secret_cli env2).1 ∧
    ((fetch_keyvault_secret_cli env1).2 = none ↔
      (fetch_keyvault_secret_cli env2).2 = none) := by
  rcases h1 : env1.cli_fetch with _ | r1 <;> rcases h2 : env2.cli_fetch with _ | r2
  · simp [fetch_keyvault_secret_cli, h1, h2, herr]
  · have := hnone.mp h1
    rw [h2] at this
    simp at this
  · have := hnone.mpr h2
    rw [h1] at this
    simp at this
  · have hiff := hempty r1 r2 h1 h2
    by_cases hs1 : pyStrip r1 = []
    · have hs2 : pyStrip r2 = [] := hiff.mp hs1
      simp [fetch_keyvault_secret_cli, h1, h2, hs1, hs2]
    · have hs2 : ¬ pyStrip r2 = [] := fun h => hs1 (hiff.mpr h)
      simp [fetch_keyvault_secret_cli, h1, h2, hs1, hs2]

/-- The whole fetcher's output and failure/success outcome are likewise
independent of the secret characters. -/
theorem fetch_out_indep (env1 env2 : Env)
    (hsdkav : env1.sdk_available = env2.sdk_available)
    (hsdkerr : env1.sdk_err = env2.sdk_err)
    (hclierr : env1.cli_err = env2.cli_err)
    (hnone : env1.sdk_fetch = none ↔ env2.sdk_fetch = none)
    (hcnone : env1.cli_fetch = none ↔ env2.cli_fetch = none)
    (hcempty : ∀ r1 r2, env1.cli_fetch = some r1 → env2.cli_fetch = some r2 →
      (pyStrip r1 = [] ↔ pyStrip r2 = [])) :
    (fetch_keyvault_secret env1).1 = (fetch_keyvault_secret env2).1 ∧
    ((fetch_keyvault_secret env1).2 = none ↔
      (fetch_keyvault_secret env2).2 = none) := by
  obtain ⟨hcl1, hcl2⟩ := cli_out_indep env1 env2 hclierr hcnone hcempty
  rcases hc1 : fetch_keyvault_secret_cli env1 with ⟨co1, r1⟩
  rcases hc2 : fetch_keyvault_secret_cli env2 with ⟨co2, r2⟩
  rw [hc1, hc2] at hcl1 hcl2
  simp only at hcl1 hcl2
  subst hcl1
  cases hsa : env1.sdk_available
  · have hsa2 : env2.sdk_available = false := by rw [← hsdkav]; exact hsa
    cases r1 <;> cases r2 <;>
      simp_all [fetch_keyvault_secret, hsa, hsa2, hc1, hc2]
  · have hsa2 : env2.sdk_available = true := by rw [← hsdkav]; exact hsa
    rcases hk1 : env1.sdk_fetch with _ | v1 <;> rcases hk2 : env2.sdk_fetch with _ | v2
    · cases r1 <;> cases r2 <;>
        simp_all [fetch_keyvault_secret, fetch_keyvault_secret_sdk,
          hsa, hsa2, hc1, hc2, hsdkerr]
    · have := hnone.mp hk1
      rw [hk2] at this
      simp at this
    · have := hnone.mpr hk2
      rw [hk1] at this
      simp at this
    · simp [fetch_keyvault_secret, fetch_keyvault_secret_sdk, hsa, hsa2, hk1, hk2]

/-- The patcher's output and success flag do not depend on the token. -/
theorem update_out_indep (t1 t2 : List Char) (env : Env) (fs : FileState) :
    (update_ansible_config t1 env fs).1 = (update_ansible_config t2 env fs).1 ∧
    (update_ansible_config t1 env fs).2.2 = (update_ansible_config t2 env fs).2.2 := by
  cases hb : env.backup_ok <;> cases hr : env.read_ok <;>
    cases hw : env.write_ok <;> cases hs : env.restore_ok <;>
      simp [update_ansible_config, hb, hr, hw, hs]

/-- The verifier's output and outcome depend on the re-read content only
through the placeholder-presence test and the token-line count. -/
theorem verify_out_indep (env : Env) (fs1 fs2 : FileState)
    (ho : occursIn Token_Placeholder.data fs1.target =
      occursIn Token_Placeholder.data fs2.target)
    (hn : countTokenLines fs1.target = countTokenLines fs2.target) :
    (verify_update env fs1).1 = (verify_update env fs2).1 ∧
    (verify_update env fs1).2 = (verify_update env fs2).2 := by
  cases hv : env.verify_read_ok
  · simp [verify_update, hv]
  · cases h1 : occursIn Token_Placeholder.data fs1.target
    · have h2 : occursIn Token_Placeholder.data fs2.target = false := by
        rw [← ho]; exact h1
      by_cases hcnt : countTokenLines fs1.target = 0
      · have hcnt2 : countTokenLines fs2.target = 0 := by rw [← hn]; exact hcnt
        simp [verify_update, hv, h1, h2, hcnt, hcnt2]
      · have hcnt2 : ¬ countTokenLines fs2.target = 0 := by rw [← hn]; exact hcnt
        simp [verify_update, hv, h1, h2, hcnt, hcnt2, hn]
    · have h2 : occursIn Token_Placeholder.data fs2.target = true := by
        rw [← ho]; exact h1
      simp [verify_update, hv, h1, h2]

/-- When the patcher reports success, the resulting file state is the
substituted content with the pre-write content backed up. -/
theorem update_true_target (tok : List Char) (env : Env) (fs : FileState)
    (h : (update_ansible_config tok env fs).2.2 = true) :
    (update_ansible_config tok env fs).2.1 =
      ⟨pyReplace fs.target Token_Placeholder.data tok, some fs.target⟩ := by
  have hspec := update_spec tok env fs
  rw [hspec] at h
  rw [hspec]
  cases hb : env.backup_ok <;> cases hr : env.read_ok <;>
    cases hw : env.write_ok <;> cases hrs : env.restore_ok <;>
      simp [hb, hr, hw, hrs] at h ⊢

/-- C9: the console output never contains the secret value itself — two
runs over the same environment differing only in the fetched secret
values produce character-identical output, provided they take the same
retrieval branches and the two patched contents agree on the two
verification predicates (placeholder presence and token-line count, which
are about the patched file, not the secret).  On retrieval failure only
the fixed diagnostics (vault URL, secret name, version, exception text)
are printed, and those are the same in both runs. -/
theorem C9_no_secret_in_output (env : Env) (s1 c1 s2 c2 : Option (List Char))
    (hs : s1 = none ↔ s2 = none)
    (hc : c1 = none ↔ c2 = none)
    (hce : ∀ r1 r2, c1 = some r1 → c2 = some r2 →
      (pyStrip r1 = [] ↔ pyStrip r2 = []))
    (htok : ∀ t1 t2,
      (fetch_keyvault_secret { env with sdk_fetch := s1, cli_fetch := c1 }).2 = some t1 →
      (fetch_keyvault_secret { env with sdk_fetch := s2, cli_fetch := c2 }).2 = some t2 →
      occursIn Token_Placeholder.data
          (pyReplace env.config_content Token_Placeholder.data t1) =
        occursIn Token_Placeholder.data
          (pyReplace env.config_content Token_Placeholder.data t2) ∧
      countTokenLines (pyReplace env.config_content Token_Placeholder.data t1) =
        countTokenLines (pyReplace env.config_content Token_Placeholder.data t2)) :
    (main { env with sdk_fetch := s1, cli_fetch := c1 }).out =
      (main { env with sdk_fetch := s2, cli_fetch := c2 }).out := by
  obtain ⟨hfo, hfn⟩ := fetch_out_indep
    { env with sdk_fetch := s1, cli_fetch := c1 }
    { env with sdk_fetch := s2, cli_fetch := c2 }
    rfl rfl rfl hs hc hce
  have hval : validate_prerequisites { env with sdk_fetch := s1, cli_fetch := c1 } =
      validate_prerequisites { env with sdk_fetch := s2, cli_fetch := c2 } := rfl
  rcases hv1 : validate_prerequisites { env with sdk_fetch := s1, cli_fetch := c1 }
    with ⟨vo, vok⟩
  have hv2 : validate_prerequisites { env with sdk_fetch := s2, cli_fetch := c2 } =
      (vo, vok) := by rw [← hval]; exact hv1
  cases vok
  · simp [main, hv1, hv2]
  · rcases hf1 : fetch_keyvault_secret { env with sdk_fetch := s1, cli_fetch := c1 }
      with ⟨fo1, r1⟩
    rcases hf2 : fetch_keyvault_secret { env with sdk_fetch := s2, cli_fetch := c2 }
      with ⟨fo2, r2⟩
    rw [hf1, hf2] at hfo hfn
    simp only at hfo hfn
    subst hfo
    cases r1 with
    | none =>
      have h2 : r2 = none := hfn.mp rfl
      subst h2
      simp [main, hv1, hv2, hf1, hf2]
    | some t1 =>
      cases r2 with
      | none =>
        have habs : (some t1 : Option (List Char)) = none := hfn.mpr rfl
        simp at habs
      | some t2 =>
        have hcond := htok t1 t2 (by rw [hf1]) (by rw [hf2])
        have htr2 : update_ansible_config t2 { env with sdk_fetch := s2, cli_fetch := c2 }
            ⟨env.config_content, none⟩ =
          update_ansible_config t2 { env with sdk_fetch := s1, cli_fetch := c1 }
            ⟨env.config_content, none⟩ := rfl
        obtain ⟨huo, huk⟩ := update_out_indep t1 t2
          { env with sdk_fetch := s1, cli_fetch := c1 } ⟨env.config_content, none⟩
        rcases hu1 : update_ansible_config t1 { env with sdk_fetch := s1, cli_fetch := c1 }
            ⟨env.config_content, none⟩ with ⟨uo1, fs1, uk1⟩
        rcases hu2 : update_ansible_config t2 { env with sdk_fetch := s2, cli_fetch := c2 }
            ⟨env.config_content, none⟩ with ⟨uo2, fs2, uk2⟩
        have hu2' : update_ansible_config t2 { env with sdk_fetch := s1, cli_fetch := c1 }
            ⟨env.config_content, none⟩ = (uo2, fs2, uk2) := by rw [← htr2]; exact hu2
        rw [hu1, hu2'] at huo huk
        simp only at huo huk
        subst huo
        cases uk1 with
        | false =>
          have h2 : uk2 = false := by rw [← huk]
          subst h2
          simp [main, hv1, hv2, hf1, hf2, hu1, hu2]
        | true =>
          have h2 : uk2 = true := by rw [← huk]
          subst h2
          have ht1 : fs1 = ⟨pyReplace env.config_content Token_Placeholder.data t1,
              some env.config_content⟩ := by
            have hx := update_true_target t1 { env with sdk_fetch := s1, cli_fetch := c1 }
              ⟨env.config_content, none⟩ (by rw [hu1])
            rw [hu1] at hx
            exact hx
          have ht2 : fs2 = ⟨pyReplace env.config_content Token_Placeholder.data t2,
              some env.config_content⟩ := by
            have hx := update_true_target t2 { env with sdk_fetch := s1, cli_fetch := c1 }
              ⟨env.config_content, none⟩ (by rw [hu2'])
            rw [hu2'] at hx
            exact hx
          obtain ⟨hvo, hvk⟩ := verify_out_indep
            { env with sdk_fetch := s1, cli_fetch := c1 } fs1 fs2
            (by rw [ht1, ht2]; exact hcond.1)
            (by rw [ht1, ht2]; exact hcond.2)
          have hvtr : verify_update { env with sdk_fetch := s2, cli_fetch := c2 } fs2 =
            verify_update { env with sdk_fetch := s1, cli_fetch := c1 } fs2 := rfl
          rcases hw1 : verify_update { env with sdk_fetch := s1, cli_fetch := c1 } fs1
            with ⟨wo1, wk1⟩
          rcases hw2 : verify_update { env with sdk_fetch := s2, cli_fetch := c2 } fs2
            with ⟨wo2, wk2⟩
          have hw2' : verify_update { env with sdk_fetch := s1, cli_fetch := c1 } fs2 =
              (wo2, wk2) := by rw [← hvtr]; exact hw2
          rw [hw1, hw2'] at hvo hvk
          simp only at hvo hvk
          subst hvo
          cases wk1 with
          | false =>
            have h3 : wk2 = false := by rw [← hvk]
            subst h3
            simp [main, hv1, hv2, hf1, hf2, hu1, hu2, hw1, hw2]
          | true =>
            have h3 : wk2 = true := by rw [← hvk]
            subst h3
            simp [main, hv1, hv2, hf1, hf2, hu1, hu2, hw1, hw2]

/-- C9 witness: two healthy runs fetching different secrets print exactly
the same console output. -/
theorem C9_witness :
    (main { baseEnv with sdk_fetch := some "abc123".data, cli_fetch := some "x".data }).out =
      (main { baseEnv with sdk_fetch := some "zz99".data, cli_fetch := some "x".data }).out :=
  C9_no_secret_in_output baseEnv (some "abc123".data) (some "x".data)
    (some "zz99".data) (some "x".data)
    (by decide) (by decide)
    (fun r1 r2 h1 h2 => by
      injection h1 with e1
      injection h2 with e2
      subst e1
      subst e2
      decide)
    (fun t1 t2 h1 h2 => by
      have e1 : (some ("abc123".data) : Option (List Char)) = some t1 := h1
      have e2 : (some ("zz99".data) : Option (List Char)) = some t2 := h2
      injection e1 with e1
      injection e2 with e2
      subst e1
      subst e2
      decide)

end UpdateAnsibleConfig
